import Mathlib

/-!
Shallow embedding of src/main.py (a FastAPI CRUD service over in-memory
dictionaries for users, clients, invoices and products, with a CSV
export/import bridge), together with theorems settling the specification
claims about it.

Modelling conventions:
* Python dicts are ordered association lists; assignment (d[k] = v)
  replaces the value in place when the key is present and appends
  otherwise, matching insertion-order semantics of Python dicts.
* Python ints are Lean Int; all other payload fields are String.
* An HTTP handler is a function from the application state (the four
  module-level dicts) to a pair of a response (Except HTTPError answer,
  mirroring raise HTTPException versus return) and the state after the
  call.
* bcrypt.hash draws a fresh random salt at every call; the salt is made
  an explicit argument, and a hash is modelled as the pair of the salt
  and the hashed password, with bcrypt.verify comparing the password.
* File upload bodies are modelled after UTF-8 decoding, as the decoded
  String; csv parsing is modelled for inputs without quoted fields
  (neither the source export nor any input relevant to the claims uses
  quoting or escaping, and the source itself emits unescaped output).
-/

namespace FastApiApp

/-- Error raised by a handler via raise HTTPException(status_code, detail). -/
structure HTTPError where
  status_code : Nat
  detail : String
deriving DecidableEq, Repr

/-- Pydantic model User from main.py. The hashed_password is the bcrypt
hash, modelled as a salt paired with the hashed password (see BcryptHash). -/
structure BcryptHash where
  salt : Nat
  pw : String
deriving DecidableEq, Repr

/-- Model of passlib bcrypt.hash: hashes the password under a (random,
here explicit) salt. -/
def bcryptHash (password : String) (salt : Nat) : BcryptHash :=
  ⟨salt, password⟩

/-- Model of passlib bcrypt.verify: checks the password against the hash. -/
def bcryptVerify (password : String) (h : BcryptHash) : Bool :=
  h.pw == password

/-- Pydantic model User from main.py. -/
structure User where
  id : Int
  email : String
  hashed_password : BcryptHash
deriving DecidableEq, Repr

/-- Pydantic model UserCreate from main.py (registration request body). -/
structure UserCreate where
  email : String
  password : String
deriving DecidableEq, Repr

/-- The OAuth2 password form read by the /token endpoint (the fields
form_data.username and form_data.password that the handler body uses). -/
structure OAuth2Form where
  username : String
  password : String
deriving DecidableEq, Repr

/-- Pydantic model Token from main.py. The handler returns the submitted
form object itself as access_token, so the field holds an OAuth2Form. -/
structure Token where
  access_token : OAuth2Form
  token_type : String
deriving DecidableEq, Repr

/-- Pydantic model Cliente from main.py. -/
structure Cliente where
  id : Int
  documento : String
  first_name : String
  last_name : String
  email : String
  password : String
deriving DecidableEq, Repr

/-- Pydantic model Factura from main.py. -/
structure Factura where
  id : Int
  client_id : Int
  company_name : String
  nit : String
  code : String
deriving DecidableEq, Repr

/-- Pydantic model Producto from main.py. -/
structure Producto where
  id : Int
  name : String
  description : String
deriving DecidableEq, Repr

/-- Python dict assignment d[k] = v on an insertion-ordered dict: replace
the value of the first entry with this key in place, else append. -/
def dinsert {K : Type} {α : Type} [BEq K] : List (K × α) → K → α → List (K × α)
  | [], k, v => [(k, v)]
  | p :: rest, k, v => if p.1 == k then (k, v) :: rest else p :: dinsert rest k v

/-- Python dict lookup d[k] (as an Option). -/
def dget {K : Type} {α : Type} [BEq K] (db : List (K × α)) (k : K) : Option α :=
  (db.find? (fun p => p.1 == k)).map (fun p => p.2)

/-- Python membership test k in d. -/
def dmem {K : Type} {α : Type} [BEq K] (db : List (K × α)) (k : K) : Bool :=
  db.any (fun p => p.1 == k)

/-- Python d.values(). -/
def dvalues {K : Type} {α : Type} (db : List (K × α)) : List α :=
  db.map (fun p => p.2)

/-- The four module-level dictionaries of main.py: db_users (keyed by
email), db_clientes, db_facturas and db_productos (keyed by id). -/
structure AppState where
  db_users : List (String × User)
  db_clientes : List (Int × Cliente)
  db_facturas : List (Int × Factura)
  db_productos : List (Int × Producto)
deriving DecidableEq, Repr

/-- The state at module load: all four dicts empty. -/
def initialState : AppState :=
  ⟨[], [], [], []⟩

/-- get_user from main.py: look a user up by email, None when absent. -/
def get_user (db : List (String × User)) (email : String) : Option User :=
  dget db email

/-- POST /register (register in main.py). The salt argument stands for the
fresh random salt bcrypt.hash draws internally. -/
def register (st : AppState) (user : UserCreate) (salt : Nat) :
    Except HTTPError User × AppState :=
  if dmem st.db_users user.email then
    (.error ⟨400, "Email already registered"⟩, st)
  else
    let hashed_password := bcryptHash user.password salt
    let user_data : User := ⟨Int.ofNat st.db_users.length + 1, user.email, hashed_password⟩
    (.ok user_data, { st with db_users := dinsert st.db_users user.email user_data })

/-- POST /token (login_for_access_token in main.py): look the user up by
the submitted username, verify the password hash, and on success return a
token that echoes the submitted form object as access_token. -/
def login_for_access_token (st : AppState) (form_data : OAuth2Form) :
    Except HTTPError Token × AppState :=
  match get_user st.db_users form_data.username with
  | some user =>
    if bcryptVerify form_data.password user.hashed_password then
      (.ok ⟨form_data, "bearer"⟩, st)
    else
      (.error ⟨401, "Invalid credentials"⟩, st)
  | none => (.error ⟨401, "Invalid credentials"⟩, st)

/-- GET /protected (protected_route in main.py): the token argument is
whatever bearer token the request carried; the body ignores it and
returns the fixed message. -/
def protected_route (st : AppState) (token : String) :
    Except HTTPError String × AppState :=
  (.ok "Access granted", st)

/-- POST /clientes (create_cliente in main.py). -/
def create_cliente (st : AppState) (cliente : Cliente) :
    Except HTTPError Cliente × AppState :=
  if dmem st.db_clientes cliente.id then
    (.error ⟨400, "Client ID already exists"⟩, st)
  else
    (.ok cliente, { st with db_clientes := dinsert st.db_clientes cliente.id cliente })

/-- GET /clientes (read_clientes in main.py). -/
def read_clientes (st : AppState) : Except HTTPError (List Cliente) × AppState :=
  (.ok (dvalues st.db_clientes), st)

/-- GET /clientes/{id} (read_cliente in main.py): raise 404 when the id is
not in the dict, else return the stored record. The membership test of the
source (cliente_id not in db_clientes) and the subsequent indexing coincide
with one association-list lookup. -/
def read_cliente (st : AppState) (cliente_id : Int) :
    Except HTTPError Cliente × AppState :=
  match dget st.db_clientes cliente_id with
  | some c => (.ok c, st)
  | none => (.error ⟨404, "Client not found"⟩, st)

/-- POST /facturas (create_factura in main.py). -/
def create_factura (st : AppState) (factura : Factura) :
    Except HTTPError Factura × AppState :=
  if dmem st.db_facturas factura.id then
    (.error ⟨400, "Factura ID already exists"⟩, st)
  else
    (.ok factura, { st with db_facturas := dinsert st.db_facturas factura.id factura })

/-- GET /facturas/{id} (read_factura in main.py). -/
def read_factura (st : AppState) (factura_id : Int) :
    Except HTTPError Factura × AppState :=
  match dget st.db_facturas factura_id with
  | some f => (.ok f, st)
  | none => (.error ⟨404, "Factura not found"⟩, st)

/-- POST /productos (create_producto in main.py). -/
def create_producto (st : AppState) (producto : Producto) :
    Except HTTPError Producto × AppState :=
  if dmem st.db_productos producto.id then
    (.error ⟨400, "Producto ID already exists"⟩, st)
  else
    (.ok producto, { st with db_productos := dinsert st.db_productos producto.id producto })

/-- GET /productos/{id} (read_producto in main.py). -/
def read_producto (st : AppState) (producto_id : Int) :
    Except HTTPError Producto × AppState :=
  match dget st.db_productos producto_id with
  | some p => (.ok p, st)
  | none => (.error ⟨404, "Producto not found"⟩, st)

/-- Header cell list of the export (headers in export_clients_csv). -/
def export_headers : List String :=
  ["ID", "Documento", "Nombre Completo", "Cantidad de Facturas"]

/-- Full name as built by the export: first name, one space, last name. -/
def nombre_completo (cliente : Cliente) : String :=
  cliente.first_name ++ " " ++ cliente.last_name

/-- Number of invoices whose client_id equals the given key, as computed
inside the export loop (len of the filtered db_facturas.values()). -/
def cantidad_facturas (st : AppState) (cliente_id : Int) : Nat :=
  ((dvalues st.db_facturas).filter (fun f => f.client_id == cliente_id)).length

/-- The rows list built by export_clients_csv before streaming: one row per
entry of db_clientes, with the record id, the document, the full name and
the invoice count of the dict key, each rendered with str(). -/
def export_rows (st : AppState) : List (List String) :=
  st.db_clientes.map (fun p =>
    [toString p.2.id, p.2.documento, nombre_completo p.2,
     toString (cantidad_facturas st p.1)])

/-- GET /export_clients_csv (export_clients_csv in main.py): the list of
chunks produced by the inner async generator generate(). The generator
concatenates the comma-joined header line and every comma-joined row line
into the single local string content (awaiting asyncio.sleep(0) between
rows, a no-op scheduling point) and then yields once, so the chunk list is
the one-element list holding the whole document. -/
def export_clients_csv (st : AppState) : List String :=
  [(export_rows st).foldl
    (fun content row => content ++ String.intercalate "," row ++ "\n")
    (String.intercalate "," export_headers ++ "\n")]

/-- The full response body of the export: its chunks concatenated. -/
def export_content (st : AppState) : String :=
  String.join (export_clients_csv st)

/-- Python str.splitlines restricted to the newline character (the only
line break produced or consumed here), on the character list of a string:
no trailing empty line for a trailing newline, and no lines at all for the
empty string. -/
def splitLinesChar : List Char → List (List Char)
  | [] => []
  | c :: rest =>
    if c = '\n' then [] :: splitLinesChar rest
    else
      match splitLinesChar rest with
      | [] => [[c]]
      | l :: ls => (c :: l) :: ls

/-- Field split of one csv line without quoting: Python str.split on the
comma, so the empty line yields one empty field. -/
def splitCommaChar : List Char → List (List Char)
  | [] => [[]]
  | c :: rest =>
    if c = ',' then [] :: splitCommaChar rest
    else
      match splitCommaChar rest with
      | [] => [[c]]
      | l :: ls => (c :: l) :: ls

/-- The cells of one csv line. -/
def lineFields (l : List Char) : List String :=
  (splitCommaChar l).map (fun cs => String.mk cs)

/-- csv.DictReader over the splitlines of the decoded upload: the first
line gives the field names, and every later non-blank line is one data
row (DictReader skips rows coming from blank lines). -/
def dictReader (content : String) : List String × List (List String) :=
  match splitLinesChar content.data with
  | [] => ([], [])
  | h :: rest => (lineFields h, (rest.filter (fun l => !l.isEmpty)).map lineFields)

/-- The pydantic field names of Cliente, in declaration order. -/
def fieldNames : List String :=
  ["id", "documento", "first_name", "last_name", "email", "password"]

/-- Accumulating decimal digits, failing at the first non-digit. -/
def digitsToNat (acc : Nat) : List Char → Option Nat
  | [] => some acc
  | c :: rest =>
    if c.isDigit then digitsToNat (acc * 10 + (c.toNat - 48)) rest else none

/-- Model of the int() coercion pydantic applies to the id cell: an
optional leading minus sign followed by at least one decimal digit (the
whitespace tolerance of int() is irrelevant to csv cells produced or
consumed here and is not modelled). -/
def pyInt (s : String) : Option Int :=
  match s.data with
  | [] => none
  | c :: rest =>
    if c = '-' then
      if rest.isEmpty then none
      else (digitsToNat 0 rest).map (fun n => -(Int.ofNat n))
    else (digitsToNat 0 (c :: rest)).map Int.ofNat

/-- Lookup in the row dict built by DictReader (dict(zip(fieldnames, row))):
with duplicate column names the last occurrence wins, hence the search from
the right. -/
def rlookup (row : List (String × String)) (k : String) : Option String :=
  (row.reverse.find? (fun p => p.1 == k)).map (fun p => p.2)

/-- Cliente(**row) on a DictReader row dict: pydantic requires every field
of Cliente to be present under exactly its name, coerces the id cell to an
int, ignores extra keys, and raises a validation error otherwise. -/
def cliente_from_row (row : List (String × String)) : Except String Cliente :=
  match rlookup row "id" with
  | none => .error "validation error: field id required"
  | some ids =>
    match pyInt ids with
    | none => .error "validation error: id is not a valid integer"
    | some i =>
      match rlookup row "documento", rlookup row "first_name",
            rlookup row "last_name", rlookup row "email",
            rlookup row "password" with
      | some d, some f, some l, some e, some p => .ok ⟨i, d, f, l, e, p⟩
      | _, _, _, _, _ => .error "validation error: field required"

/-- One loop body of upload_clients_csv: pair the header cells with the row
cells (a row longer than the header puts the rest under the None restkey,
on which Cliente(**row) raises a TypeError; a shorter row leaves the
remaining fields at the None restval, on which pydantic raises a validation
error, modelled as the keys being absent) and build the Cliente. -/
def processRow (header : List String) (fields : List String) :
    Except String Cliente :=
  if header.length < fields.length then
    .error "TypeError: keywords must be strings"
  else
    cliente_from_row (header.zip fields)

/-- The for loop of upload_clients_csv over the data rows: each parsed
Cliente is assigned into the dict under its id at once, so rows before a
failing row stay stored and the exception carries the dict as mutated so
far. -/
def upload_loop (header : List String) (db : List (Int × Cliente)) :
    List (List String) → Except String String × List (Int × Cliente)
  | [] => (.ok "Clientes cargados exitosamente", db)
  | fields :: rest =>
    match processRow header fields with
    | .error e => (.error e, db)
    | .ok c => upload_loop header (dinsert db c.id c) rest

/-- POST /upload_clients_csv (upload_clients_csv in main.py), taking the
UTF-8 decoded file content: run DictReader over its lines, build one
Cliente per data row and assign it into db_clientes under its id. The
response is the success message dict, or the uncaught exception of a
failing row (surfacing as a 500). -/
def upload_clients_csv (st : AppState) (content : String) :
    Except String String × AppState :=
  let header := (dictReader content).1
  let rows := (dictReader content).2
  let result := upload_loop header st.db_clientes rows
  (result.1, { st with db_clientes := result.2 })

/-- The client of the scenario fixed by the specification. -/
def anaCliente : Cliente :=
  ⟨1, "D1", "Ana", "Lee", "a@x.com", "p"⟩

/-- The invoice of the scenario fixed by the specification. -/
def acmeFactura : Factura :=
  ⟨10, 1, "Acme", "N1", "C1"⟩

/-- The state after creating anaCliente and acmeFactura on a fresh app. -/
def scenarioState : AppState :=
  (create_factura (create_cliente initialState anaCliente).2 acmeFactura).2

/-- A second client used to exercise states with several records. -/
def bobCliente : Cliente :=
  ⟨2, "D2", "Bob", "Kay", "b@x.com", "q"⟩

/-- State holding two clients, built through the create endpoint. -/
def twoClientState : AppState :=
  (create_cliente (create_cliente initialState anaCliente).2 bobCliente).2

/-- Identity view of a client dict stated after the words of the round-trip
claim: the ids, document numbers and names (first and last) of the stored
clients, used to compare registry contents before and after a round trip. -/
def clientIdentity (db : List (Int × Cliente)) : List (Int × String × String × String) :=
  (dvalues db).map (fun c => (c.id, c.documento, c.first_name, c.last_name))

/-- Construction of one Cliente per data row, stated after the words of
the claim on the csv upload, to be compared with the early-exit loop of
the source: all rows parse, in order, or the first failure is reported. -/
def parseRows (header : List String) : List (List String) → Except String (List Cliente)
  | [] => .ok []
  | fields :: rest =>
    match processRow header fields with
    | .error e => .error e
    | .ok c =>
      match parseRows header rest with
      | .error e => .error e
      | .ok cs => .ok (c :: cs)

/-- A csv upload whose header carries one column beyond the Cliente field
names. -/
def extraHeaderCsv : String :=
  "id,documento,first_name,last_name,email,password,extra\n1,D1,Ana,Lee,a@x.com,p,zzz\n"

/-- A csv upload whose single data row reuses the id of the already stored
scenario client. -/
def overwriteCsv : String :=
  "id,documento,first_name,last_name,email,password\n1,D9,Zoe,Rey,z@x.com,r\n"

/-- The client carried by the data row of overwriteCsv. -/
def zoeCliente : Cliente :=
  ⟨1, "D9", "Zoe", "Rey", "z@x.com", "r"⟩

/-- Registry states reachable from the freshly loaded module through the
mutating create endpoints and the csv import. -/
inductive Reachable : AppState → Prop
  | empty : Reachable initialState
  | createCliente (st : AppState) (c : Cliente) :
      Reachable st → Reachable (create_cliente st c).2
  | createFactura (st : AppState) (f : Factura) :
      Reachable st → Reachable (create_factura st f).2
  | createProducto (st : AppState) (p : Producto) :
      Reachable st → Reachable (create_producto st p).2
  | uploadCsv (st : AppState) (content : String) :
      Reachable st → Reachable (upload_clients_csv st content).2

/-- Every key of each id-keyed registry equals the id field of the record
stored under it. -/
def KeyedById (st : AppState) : Prop :=
  (∀ p ∈ st.db_clientes, p.1 = p.2.id) ∧
  (∀ p ∈ st.db_facturas, p.1 = p.2.id) ∧
  (∀ p ∈ st.db_productos, p.1 = p.2.id)

section DictLemmas

variable {K : Type} {α : Type} [BEq K] [LawfulBEq K]

theorem dget_dinsert (db : List (K × α)) (k k2 : K) (v : α) :
    dget (dinsert db k v) k2 = if k == k2 then some v else dget db k2 := by
  induction db with
  | nil =>
    cases hkk : (k == k2) <;>
      simp [dinsert, dget, List.find?_cons, hkk]
  | cons p rest ih =>
    cases hpk : (p.1 == k) with
    | true =>
      have hp : p.1 = k := by simpa using hpk
      cases hkk : (k == k2) with
      | true => simp [dinsert, dget, List.find?_cons, hpk, hkk]
      | false =>
        have hpk2 : (p.1 == k2) = false := by rw [hp]; exact hkk
        simp [dinsert, dget, List.find?_cons, hpk, hkk, hpk2]
    | false =>
      cases hpk2 : (p.1 == k2) with
      | true =>
        have hkk : (k == k2) = false := by
          cases hkk : (k == k2) with
          | true =>
            have h1 : k = k2 := by simpa using hkk
            have h2 : p.1 = k2 := by simpa using hpk2
            rw [← h1] at h2
            rw [h2] at hpk
            simp at hpk
          | false => rfl
        simp [dinsert, dget, List.find?_cons, hpk, hpk2, hkk]
      | false =>
        have := ih
        simp only [dget] at this
        simp [dinsert, dget, List.find?_cons, hpk, hpk2, this]

theorem dget_eq_none_of_dmem (db : List (K × α)) (k : K)
    (h : dmem db k = false) : dget db k = none := by
  simp only [dmem, List.any_eq_false] at h
  unfold dget
  rw [List.find?_eq_none.2 h]
  rfl

theorem dmem_eq_true_of_dget (db : List (K × α)) (k : K) (v : α)
    (h : dget db k = some v) : dmem db k = true := by
  by_contra hc
  rw [dget_eq_none_of_dmem db k (by simpa using hc)] at h
  exact Option.noConfusion h

theorem dmem_dinsert_self (db : List (K × α)) (k : K) (v : α) :
    dmem (dinsert db k v) k = true :=
  dmem_eq_true_of_dget _ _ v (by simp [dget_dinsert])

end DictLemmas

/-- Claim C1: on every registry, creating a record whose id is already
stored fails with HTTP 400 (Conflict) and the whole application state is
returned unchanged, so the stored record under that id and every other
entry are untouched. -/
theorem spec_c1_create_conflict (st : AppState) :
    (∀ c : Cliente, dmem st.db_clientes c.id = true →
      create_cliente st c = (.error ⟨400, "Client ID already exists"⟩, st)) ∧
    (∀ f : Factura, dmem st.db_facturas f.id = true →
      create_factura st f = (.error ⟨400, "Factura ID already exists"⟩, st)) ∧
    (∀ p : Producto, dmem st.db_productos p.id = true →
      create_producto st p = (.error ⟨400, "Producto ID already exists"⟩, st)) := by
  refine ⟨fun c hc => ?_, fun f hf => ?_, fun p hp => ?_⟩
  · simp [create_cliente, hc]
  · simp [create_factura, hf]
  · simp [create_producto, hp]

/-- Witness for C1: re-creating the already stored scenario client and
invoice, and a product duplicate, at concrete states. -/
theorem spec_c1_witness :
    create_cliente scenarioState anaCliente =
      (.error ⟨400, "Client ID already exists"⟩, scenarioState) ∧
    create_factura scenarioState acmeFactura =
      (.error ⟨400, "Factura ID already exists"⟩, scenarioState) ∧
    create_producto (create_producto initialState ⟨5, "n", "d"⟩).2 ⟨5, "n2", "d2"⟩ =
      (.error ⟨400, "Producto ID already exists"⟩,
       (create_producto initialState ⟨5, "n", "d"⟩).2) :=
  ⟨(spec_c1_create_conflict scenarioState).1 anaCliente (by decide),
   (spec_c1_create_conflict scenarioState).2.1 acmeFactura (by decide),
   (spec_c1_create_conflict (create_producto initialState ⟨5, "n", "d"⟩).2).2.2
     ⟨5, "n2", "d2"⟩ (by decide)⟩

/-- Claim C4: token issuance returns 401 when the username is unknown or
when hash verification fails, and otherwise returns a token that echoes
the submitted credentials object with token type bearer. -/
theorem spec_c4_token (st : AppState) (form : OAuth2Form) :
    (get_user st.db_users form.username = none →
      login_for_access_token st form = (.error ⟨401, "Invalid credentials"⟩, st)) ∧
    (∀ user, get_user st.db_users form.username = some user →
      bcryptVerify form.password user.hashed_password = false →
      login_for_access_token st form = (.error ⟨401, "Invalid credentials"⟩, st)) ∧
    (∀ user, get_user st.db_users form.username = some user →
      bcryptVerify form.password user.hashed_password = true →
      login_for_access_token st form = (.ok ⟨form, "bearer"⟩, st)) := by
  refine ⟨fun h => ?_, fun user h hv => ?_, fun user h hv => ?_⟩
  · simp [login_for_access_token, h]
  · simp [login_for_access_token, h, hv]
  · simp [login_for_access_token, h, hv]

/-- Witness for C4: after registering one user, logging in with a wrong
password is rejected and logging in with the right password yields the
echo token. -/
theorem spec_c4_witness :
    login_for_access_token (register initialState ⟨"u@x.com", "pw"⟩ 7).2
        ⟨"u@x.com", "bad"⟩ =
      (.error ⟨401, "Invalid credentials"⟩, (register initialState ⟨"u@x.com", "pw"⟩ 7).2) ∧
    login_for_access_token (register initialState ⟨"u@x.com", "pw"⟩ 7).2
        ⟨"u@x.com", "pw"⟩ =
      (.ok ⟨⟨"u@x.com", "pw"⟩, "bearer"⟩, (register initialState ⟨"u@x.com", "pw"⟩ 7).2) ∧
    login_for_access_token initialState ⟨"ghost", "pw"⟩ =
      (.error ⟨401, "Invalid credentials"⟩, initialState) :=
  ⟨(spec_c4_token (register initialState ⟨"u@x.com", "pw"⟩ 7).2 ⟨"u@x.com", "bad"⟩).2.1
      ⟨1, "u@x.com", ⟨7, "pw"⟩⟩ (by decide) (by decide),
   (spec_c4_token (register initialState ⟨"u@x.com", "pw"⟩ 7).2 ⟨"u@x.com", "pw"⟩).2.2
      ⟨1, "u@x.com", ⟨7, "pw"⟩⟩ (by decide) (by decide),
   (spec_c4_token initialState ⟨"ghost", "pw"⟩).1 (by decide)⟩

/-- Claim C5: registration fails with 400 when the email is taken, and
otherwise stores and returns a user whose id is the current user count
plus one and whose password is a salted hash; registering the same email
twice succeeds first and conflicts second. -/
theorem spec_c5_register (st : AppState) (u : UserCreate) (salt salt2 : Nat) (pw2 : String) :
    (dmem st.db_users u.email = true →
      register st u salt = (.error ⟨400, "Email already registered"⟩, st)) ∧
    (dmem st.db_users u.email = false →
      ∃ newUser : User,
        register st u salt =
          (.ok newUser, { st with db_users := dinsert st.db_users u.email newUser }) ∧
        newUser.id = Int.ofNat st.db_users.length + 1 ∧
        newUser.email = u.email ∧
        newUser.hashed_password = bcryptHash u.password salt ∧
        dget (register st u salt).2.db_users u.email = some newUser) ∧
    (dmem st.db_users u.email = false →
      (register (register st u salt).2 ⟨u.email, pw2⟩ salt2).1 =
        .error ⟨400, "Email already registered"⟩) := by
  refine ⟨fun h => ?_, fun h => ?_, fun h => ?_⟩
  · simp [register, h]
  · refine ⟨User.mk (Int.ofNat st.db_users.length + 1) u.email (bcryptHash u.password salt),
      ?_, rfl, rfl, rfl, ?_⟩
    · simp [register, h]
    · simp [register, h, dget_dinsert]
  · simp [register, h, dmem_dinsert_self]

/-- Witness for C5: registering a fresh email on the empty store succeeds
with id 1, and registering the same email again conflicts. -/
theorem spec_c5_witness :
    (∃ newUser : User,
      register initialState ⟨"u@x.com", "pw"⟩ 7 =
        (.ok newUser,
         { initialState with
             db_users := dinsert initialState.db_users "u@x.com" newUser }) ∧
      newUser.id = Int.ofNat initialState.db_users.length + 1 ∧
      newUser.email = "u@x.com" ∧
      newUser.hashed_password = bcryptHash "pw" 7 ∧
      dget (register initialState ⟨"u@x.com", "pw"⟩ 7).2.db_users "u@x.com" = some newUser) ∧
    (register (register initialState ⟨"u@x.com", "pw"⟩ 7).2 ⟨"u@x.com", "pw2"⟩ 9).1 =
      .error ⟨400, "Email already registered"⟩ :=
  ⟨(spec_c5_register initialState ⟨"u@x.com", "pw"⟩ 7 9 "pw2").2.1 (by decide),
   (spec_c5_register initialState ⟨"u@x.com", "pw"⟩ 7 9 "pw2").2.2 (by decide)⟩

/-- Claim C7: on every registry, get-by-id fails with 404 exactly when the
id is absent, returns the stored record when present, and in both cases
hands the state back unchanged (no registry is modified). -/
theorem spec_c7_get_by_id (st : AppState) (i : Int) :
    (dmem st.db_clientes i = false →
      read_cliente st i = (.error ⟨404, "Client not found"⟩, st)) ∧
    (∀ c, dget st.db_clientes i = some c → read_cliente st i = (.ok c, st)) ∧
    (dmem st.db_facturas i = false →
      read_factura st i = (.error ⟨404, "Factura not found"⟩, st)) ∧
    (∀ f, dget st.db_facturas i = some f → read_factura st i = (.ok f, st)) ∧
    (dmem st.db_productos i = false →
      read_producto st i = (.error ⟨404, "Producto not found"⟩, st)) ∧
    (∀ p, dget st.db_productos i = some p → read_producto st i = (.ok p, st)) := by
  refine ⟨fun h => ?_, fun c h => ?_, fun h => ?_, fun f h => ?_, fun h => ?_, fun p h => ?_⟩
  · simp [read_cliente, dget_eq_none_of_dmem _ _ h]
  · simp [read_cliente, h]
  · simp [read_factura, dget_eq_none_of_dmem _ _ h]
  · simp [read_factura, h]
  · simp [read_producto, dget_eq_none_of_dmem _ _ h]
  · simp [read_producto, h]

/-- Witness for C7: on the scenario state, an unknown invoice id yields
404, and the stored client and invoice are returned as stored. -/
theorem spec_c7_witness :
    read_factura scenarioState 999 =
      (.error ⟨404, "Factura not found"⟩, scenarioState) ∧
    read_cliente scenarioState 1 = (.ok anaCliente, scenarioState) ∧
    read_factura scenarioState 10 = (.ok acmeFactura, scenarioState) ∧
    read_producto scenarioState 1 =
      (.error ⟨404, "Producto not found"⟩, scenarioState) :=
  ⟨(spec_c7_get_by_id scenarioState 999).2.2.1 (by decide),
   (spec_c7_get_by_id scenarioState 1).2.1 anaCliente (by decide),
   (spec_c7_get_by_id scenarioState 10).2.2.2.1 acmeFactura (by decide),
   (spec_c7_get_by_id scenarioState 1).2.2.2.2.1 (by decide)⟩

/-- Claim C9: the protected probe grants access with its fixed message for
every syntactically present token and every application state; the answer
never depends on the token or on whether it was ever issued, and it never
fails. -/
theorem spec_c9_protected :
    (∀ (st : AppState) (token : String),
      protected_route st token = (.ok "Access granted", st)) ∧
    (∀ (st1 st2 : AppState) (t1 t2 : String),
      (protected_route st1 t1).1 = (protected_route st2 t2).1) :=
  ⟨fun st token => rfl, fun st1 st2 t1 t2 => rfl⟩

theorem string_foldl_append (l : List String) (init : String) :
    l.foldl (fun r s => r ++ s) init = init ++ String.join l := by
  induction l generalizing init with
  | nil => simp [String.join]
  | cons s rest ih =>
    show List.foldl _ (init ++ s) rest = _
    rw [ih (init ++ s)]
    have h2 : String.join (s :: rest) = s ++ String.join rest := by
      show List.foldl _ ("" ++ s) rest = _
      rw [ih ("" ++ s), String.empty_append]
    rw [h2, String.append_assoc]

theorem string_join_cons (s : String) (l : List String) :
    String.join (s :: l) = s ++ String.join l := by
  show List.foldl _ ("" ++ s) l = _
  rw [string_foldl_append l ("" ++ s), String.empty_append]

theorem string_join_singleton (s : String) : String.join [s] = s := by
  rw [string_join_cons]
  simp [String.join]

theorem export_fold (rows : List (List String)) (init : String) :
    rows.foldl (fun content row => content ++ String.intercalate "," row ++ "\n") init
      = init ++ String.join (rows.map (fun row => String.intercalate "," row ++ "\n")) := by
  induction rows generalizing init with
  | nil => simp [String.join]
  | cons r rest ih =>
    show List.foldl _ (init ++ String.intercalate "," r ++ "\n") rest = _
    rw [ih, List.map_cons, string_join_cons]
    simp [String.append_assoc]

theorem intercalate_four (a b c d : String) :
    String.intercalate "," [a, b, c, d] = a ++ "," ++ b ++ "," ++ c ++ "," ++ d := rfl

/-- Claim C3: the export document is the fixed header line followed by one
line per stored client, whose full-name cell joins first and last name
with one space and whose count cell is the number of invoices carrying the
clients id; and on the concrete scenario of the specification the document
contains the row 1,D1,Ana Lee,1. The stated form uses the id of the stored
record for the count; the source counts by dict key, and the two agree on
every state whose keys match the stored ids (every reachable state). -/
theorem spec_c3_export_summary (st : AppState)
    (hkeys : ∀ p ∈ st.db_clientes, p.1 = p.2.id) :
    export_content st =
      "ID,Documento,Nombre Completo,Cantidad de Facturas\n" ++
        String.join (st.db_clientes.map (fun p =>
          toString p.2.id ++ "," ++ p.2.documento ++ "," ++
            (p.2.first_name ++ " " ++ p.2.last_name) ++ "," ++
            toString (cantidad_facturas st p.2.id) ++ "\n")) ∧
    export_content scenarioState =
      "ID,Documento,Nombre Completo,Cantidad de Facturas\n1,D1,Ana Lee,1\n" := by
  constructor
  · unfold export_content export_clients_csv
    rw [string_join_singleton, export_fold]
    have h1 : String.intercalate "," export_headers ++ "\n" =
        "ID,Documento,Nombre Completo,Cantidad de Facturas\n" := rfl
    rw [h1, export_rows, List.map_map]
    refine congrArg _ (congrArg String.join (List.map_congr_left ?_))
    intro p hp
    have hk := hkeys p hp
    simp [Function.comp, intercalate_four, nombre_completo, ← hk, String.append_assoc]
  · rfl

/-- Witness for C3: the general export shape applied to the scenario state,
whose keys match the stored ids. -/
theorem spec_c3_witness :
    export_content scenarioState =
      "ID,Documento,Nombre Completo,Cantidad de Facturas\n" ++
        String.join (scenarioState.db_clientes.map (fun p =>
          toString p.2.id ++ "," ++ p.2.documento ++ "," ++
            (p.2.first_name ++ " " ++ p.2.last_name) ++ "," ++
            toString (cantidad_facturas scenarioState p.2.id) ++ "\n")) ∧
    export_content scenarioState =
      "ID,Documento,Nombre Completo,Cantidad de Facturas\n1,D1,Ana Lee,1\n" :=
  spec_c3_export_summary scenarioState (by decide)

/-- Counterexample for C8: on a state with two stored clients the export
has two data rows but produces exactly one chunk, holding the whole
document, instead of one chunk per data row. -/
theorem spec_c8_counterexample :
    (export_rows twoClientState).length = 2 ∧
    (export_clients_csv twoClientState).length = 1 ∧
    export_clients_csv twoClientState =
      ["ID,Documento,Nombre Completo,Cantidad de Facturas\n1,D1,Ana Lee,0\n2,D2,Bob Kay,0\n"] :=
  ⟨rfl, rfl, rfl⟩

/-- Amended C8: on every state the export generator concatenates the header
line and all row lines into one string (the cooperative asyncio.sleep(0)
between row concatenations is a no-op scheduling point) and emits it as a
single chunk, the whole document, rather than one chunk per row. -/
theorem spec_c8_single_chunk_amended (st : AppState) :
    export_clients_csv st = [export_content st] ∧
    (export_clients_csv st).length = 1 ∧
    export_content st =
      String.intercalate "," export_headers ++ "\n" ++
        String.join ((export_rows st).map (fun row => String.intercalate "," row ++ "\n")) := by
  refine ⟨?_, rfl, ?_⟩
  · show export_clients_csv st = [String.join (export_clients_csv st)]
    unfold export_clients_csv
    rw [string_join_singleton]
  · unfold export_content export_clients_csv
    rw [string_join_singleton, export_fold]

theorem dinsert_keyed {K : Type} {α : Type} [BEq K] (key : α → K)
    (db : List (K × α)) (k : K) (v : α)
    (hdb : ∀ p ∈ db, p.1 = key p.2) (hk : k = key v) :
    ∀ p ∈ dinsert db k v, p.1 = key p.2 := by
  induction db with
  | nil =>
    intro p hp
    simp [dinsert] at hp
    rw [hp]
    exact hk
  | cons q rest ih =>
    intro p hp
    by_cases hq : (q.1 == k) = true
    · simp only [dinsert, hq, if_pos] at hp
      rcases List.mem_cons.1 hp with h | h
      · rw [h]; exact hk
      · exact hdb p (List.mem_cons_of_mem q h)
    · simp only [dinsert, hq, if_neg, Bool.not_eq_true] at hp
      rcases List.mem_cons.1 hp with h | h
      · rw [h]; exact hdb q (List.mem_cons_self q rest)
      · exact ih (fun r hr => hdb r (List.mem_cons_of_mem q hr)) p h

theorem upload_loop_keyed (header : List String) (rows : List (List String))
    (db : List (Int × Cliente)) (hdb : ∀ p ∈ db, p.1 = p.2.id) :
    ∀ p ∈ (upload_loop header db rows).2, p.1 = p.2.id := by
  induction rows generalizing db with
  | nil => simpa [upload_loop] using hdb
  | cons fields rest ih =>
    cases hr : processRow header fields with
    | error e => simpa [upload_loop, hr] using hdb
    | ok c =>
      have hnext := ih (dinsert db c.id c) (dinsert_keyed Cliente.id db c.id c hdb rfl)
      simpa [upload_loop, hr] using hnext

/-- Claim C10: every state reachable from the empty registries through the
create endpoints and the csv import keeps each id-keyed registry keyed by
the id field of the stored record, and each of those operations preserves
the invariant. -/
theorem spec_c10_key_invariant (st : AppState) (h : Reachable st) :
    KeyedById st := by
  induction h with
  | empty =>
    exact ⟨by simp [initialState], by simp [initialState], by simp [initialState]⟩
  | createCliente st c hst ih =>
    obtain ⟨h1, h2, h3⟩ := ih
    by_cases hd : dmem st.db_clientes c.id = true
    · simpa [create_cliente, hd] using ⟨h1, h2, h3⟩
    · simp only [create_cliente, hd, if_neg, Bool.not_eq_true]
      exact ⟨dinsert_keyed Cliente.id st.db_clientes c.id c h1 rfl, h2, h3⟩
  | createFactura st f hst ih =>
    obtain ⟨h1, h2, h3⟩ := ih
    by_cases hd : dmem st.db_facturas f.id = true
    · simpa [create_factura, hd] using ⟨h1, h2, h3⟩
    · simp only [create_factura, hd, if_neg, Bool.not_eq_true]
      exact ⟨h1, dinsert_keyed Factura.id st.db_facturas f.id f h2 rfl, h3⟩
  | createProducto st p hst ih =>
    obtain ⟨h1, h2, h3⟩ := ih
    by_cases hd : dmem st.db_productos p.id = true
    · simpa [create_producto, hd] using ⟨h1, h2, h3⟩
    · simp only [create_producto, hd, if_neg, Bool.not_eq_true]
      exact ⟨h1, h2, dinsert_keyed Producto.id st.db_productos p.id p h3 rfl⟩
  | uploadCsv st content hst ih =>
    obtain ⟨h1, h2, h3⟩ := ih
    exact ⟨upload_loop_keyed _ _ _ h1, h2, h3⟩

/-- Witness for C10: the invariant holds at the concrete scenario state,
whose reachability is exhibited constructor by constructor. -/
theorem spec_c10_witness : KeyedById scenarioState :=
  spec_c10_key_invariant scenarioState
    (Reachable.createFactura (create_cliente initialState anaCliente).2 acmeFactura
      (Reachable.createCliente initialState anaCliente Reachable.empty))

theorem rlookup_append_single (row : List (String × String)) (k v name : String)
    (h : (k == name) = false) :
    rlookup (row ++ [(k, v)]) name = rlookup row name := by
  unfold rlookup
  rw [List.reverse_append, List.reverse_singleton, List.singleton_append,
    List.find?_cons_of_neg _ (by simp [h])]

theorem cliente_from_row_extra (row : List (String × String)) (k v : String)
    (h : ¬ k ∈ fieldNames) :
    cliente_from_row (row ++ [(k, v)]) = cliente_from_row row := by
  obtain ⟨n1, n2, n3, n4, n5, n6⟩ :
      ¬ k = "id" ∧ ¬ k = "documento" ∧ ¬ k = "first_name" ∧
        ¬ k = "last_name" ∧ ¬ k = "email" ∧ ¬ k = "password" := by
    simpa [fieldNames] using h
  unfold cliente_from_row
  rw [rlookup_append_single row k v "id" (by simp [n1]),
    rlookup_append_single row k v "documento" (by simp [n2]),
    rlookup_append_single row k v "first_name" (by simp [n3]),
    rlookup_append_single row k v "last_name" (by simp [n4]),
    rlookup_append_single row k v "email" (by simp [n5]),
    rlookup_append_single row k v "password" (by simp [n6])]

theorem upload_loop_of_parseRows (header : List String) (rows : List (List String))
    (db : List (Int × Cliente)) (cs : List Cliente)
    (h : parseRows header rows = .ok cs) :
    upload_loop header db rows =
      (.ok "Clientes cargados exitosamente",
       cs.foldl (fun d c => dinsert d c.id c) db) := by
  induction rows generalizing db cs with
  | nil =>
    simp only [parseRows, Except.ok.injEq] at h
    rw [← h]
    simp [upload_loop]
  | cons fields rest ih =>
    cases hr : processRow header fields with
    | error e => simp [parseRows, hr] at h
    | ok c =>
      cases hrest : parseRows header rest with
      | error e => simp [parseRows, hr, hrest] at h
      | ok cs2 =>
        simp only [parseRows, hr, hrest, Except.ok.injEq] at h
        rw [← h]
        simp [upload_loop, hr, ih (dinsert db c.id c) cs2 hrest]

theorem dget_foldl_dinsert (cs : List Cliente) (db : List (Int × Cliente)) (k : Int) :
    dget (cs.foldl (fun d c => dinsert d c.id c) db) k =
      (cs.reverse.find? (fun c => c.id == k)).or (dget db k) := by
  induction cs generalizing db with
  | nil => simp
  | cons c rest ih =>
    rw [List.foldl_cons, ih (dinsert db c.id c), List.reverse_cons, List.find?_append,
      dget_dinsert]
    cases hA : rest.reverse.find? (fun c => c.id == k) with
    | some a => simp
    | none =>
      cases hc : (c.id == k) with
      | true => simp [hc]
      | false => simp [hc]

/-- Counterexample to C6 as stated: a csv whose header holds one column
beyond the Cliente field names (so the column names do not match the field
names exactly) is still imported successfully, storing the client of its
data row. -/
theorem spec_c6_counterexample :
    (dictReader extraHeaderCsv).1 ≠ fieldNames ∧
    (upload_clients_csv initialState extraHeaderCsv).1 =
      .ok "Clientes cargados exitosamente" ∧
    dget (upload_clients_csv initialState extraHeaderCsv).2.db_clientes 1 =
      some ⟨1, "D1", "Ana", "Lee", "a@x.com", "p"⟩ :=
  ⟨by decide, by rfl, by rfl⟩

/-- Amended C6: the import decodes the upload, parses it with DictReader,
and requires of the header only that a column named exactly after each
Cliente field be present: extra columns are ignored (first conjunct).
When every data row parses, it stores one client per row keyed by its id
through plain dict assignment and answers the success message (second
conjunct); assignment overwrites silently, so after the fold the stored
record under a key is the last parsed row with that id, falling back to
the prior registry entry, and duplicate ids never raise a conflict (third
conjunct). -/
theorem spec_c6_import_amended :
    (∀ (row : List (String × String)) (k v : String), ¬ k ∈ fieldNames →
      cliente_from_row (row ++ [(k, v)]) = cliente_from_row row) ∧
    (∀ (st : AppState) (content : String) (cs : List Cliente),
      parseRows (dictReader content).1 (dictReader content).2 = .ok cs →
      upload_clients_csv st content =
        (.ok "Clientes cargados exitosamente",
         { st with db_clientes :=
             cs.foldl (fun db c => dinsert db c.id c) st.db_clientes })) ∧
    (∀ (cs : List Cliente) (db : List (Int × Cliente)) (k : Int),
      dget (cs.foldl (fun db c => dinsert db c.id c) db) k =
        (cs.reverse.find? (fun c => c.id == k)).or (dget db k)) := by
  refine ⟨cliente_from_row_extra, fun st content cs h => ?_, dget_foldl_dinsert⟩
  simp only [upload_clients_csv]
  rw [upload_loop_of_parseRows (dictReader content).1 (dictReader content).2
    st.db_clientes cs h]

/-- Witness for C6: the extra column of extraHeaderCsv is ignored on a
concrete row; importing overwriteCsv over the scenario state succeeds and
folds its row in; and the fold lookup picks the new record over the stored
scenario client under id 1. -/
theorem spec_c6_witness :
    cliente_from_row ([("id", "1"), ("documento", "D1"), ("first_name", "Ana"),
        ("last_name", "Lee"), ("email", "a@x.com"), ("password", "p")] ++ [("extra", "zzz")]) =
      cliente_from_row [("id", "1"), ("documento", "D1"), ("first_name", "Ana"),
        ("last_name", "Lee"), ("email", "a@x.com"), ("password", "p")] ∧
    upload_clients_csv scenarioState overwriteCsv =
      (.ok "Clientes cargados exitosamente",
       { scenarioState with db_clientes :=
           [zoeCliente].foldl (fun db c => dinsert db c.id c) scenarioState.db_clientes }) ∧
    dget ([zoeCliente].foldl (fun db c => dinsert db c.id c) scenarioState.db_clientes) 1 =
      ([zoeCliente].reverse.find? (fun c => c.id == 1)).or (dget scenarioState.db_clientes 1) :=
  ⟨spec_c6_import_amended.1 _ "extra" "zzz" (by decide),
   spec_c6_import_amended.2.1 scenarioState overwriteCsv [zoeCliente] (by rfl),
   spec_c6_import_amended.2.2 [zoeCliente] scenarioState.db_clientes 1⟩

theorem splitLinesChar_append (a b : List Char) (h : ∀ c ∈ a, ¬ c = '\n') :
    splitLinesChar (a ++ '\n' :: b) = a :: splitLinesChar b := by
  induction a with
  | nil => simp [splitLinesChar]
  | cons c a ih =>
    have hc : ¬ c = '\n' := h c (List.mem_cons_self c a)
    have ht : ∀ x ∈ a, ¬ x = '\n' := fun x hx => h x (List.mem_cons_of_mem c hx)
    simp [splitLinesChar, hc, ih ht]

theorem export_content_data (st : AppState) :
    (export_content st).data =
      "ID,Documento,Nombre Completo,Cantidad de Facturas".data ++ '\n' ::
        (String.join ((export_rows st).map
          (fun row => String.intercalate "," row ++ "\n"))).data := by
  unfold export_content export_clients_csv
  rw [string_join_singleton, export_fold]
  have h1 : String.intercalate "," export_headers ++ "\n" =
      "ID,Documento,Nombre Completo,Cantidad de Facturas" ++ "\n" := rfl
  rw [h1, String.append_assoc]
  simp [String.data_append]

theorem dictReader_export (st : AppState) :
    (dictReader (export_content st)).1 = export_headers := by
  have hno : ∀ c ∈ "ID,Documento,Nombre Completo,Cantidad de Facturas".data,
      ¬ c = '\n' := by decide
  unfold dictReader
  rw [export_content_data st, splitLinesChar_append _ _ hno]
  rfl

theorem processRow_export_header (fields : List String) :
    ∃ e, processRow export_headers fields = .error e := by
  unfold processRow
  by_cases hl : export_headers.length < fields.length
  · exact ⟨"TypeError: keywords must be strings", by rw [if_pos hl]⟩
  · refine ⟨"validation error: field id required", ?_⟩
    rw [if_neg hl]
    have hid : rlookup (export_headers.zip fields) "id" = none := by
      unfold rlookup
      have hfind : (export_headers.zip fields).reverse.find?
          (fun p => p.1 == "id") = none := by
        refine List.find?_eq_none.2 ?_
        intro p hp
        have hp2 := List.mem_reverse.1 hp
        obtain ⟨x, y⟩ := p
        have h1 : x ∈ export_headers := (List.of_mem_zip hp2).1
        have h4 : x = "ID" ∨ x = "Documento" ∨ x = "Nombre Completo" ∨
            x = "Cantidad de Facturas" := by
          simpa [export_headers] using h1
        rcases h4 with h | h | h | h <;> subst h <;> simp
      rw [hfind]
      rfl
    unfold cliente_from_row
    rw [hid]

theorem upload_export_clientes (st : AppState) :
    (upload_clients_csv initialState (export_content st)).2.db_clientes = [] := by
  simp only [upload_clients_csv]
  rw [dictReader_export st]
  cases hrows : (dictReader (export_content st)).2 with
  | nil => simp [upload_loop, initialState]
  | cons fields rest =>
    obtain ⟨e, he⟩ := processRow_export_header fields
    simp [upload_loop, he, initialState]

/-- Counterexample to C2 as stated: exporting the scenario registry (one
client, id 1, document D1, names Ana Lee) and importing the produced CSV
into a fresh registry reproduces nothing: the import fails on its first
data row because the export header has none of the field names the import
requires, and the resulting client registry is empty, losing the stored
identity (1, D1, Ana, Lee). -/
theorem spec_c2_counterexample :
    (upload_clients_csv initialState (export_content scenarioState)).2.db_clientes = [] ∧
    (upload_clients_csv initialState (export_content scenarioState)).1 =
      .error "validation error: field id required" ∧
    (1, "D1", "Ana", "Lee") ∈ clientIdentity scenarioState.db_clientes ∧
    ¬ (1, "D1", "Ana", "Lee") ∈ clientIdentity
        (upload_clients_csv initialState (export_content scenarioState)).2.db_clientes :=
  ⟨by rfl, by rfl, by decide, by decide⟩

/-- Amended C2: the export-import round trip reproduces nothing. On every
registry state, importing the export into a fresh registry stores no
client at all, because the export header (ID, Documento, Nombre Completo,
Cantidad de Facturas) carries none of the column names the import
requires, so every data row fails validation; the import succeeds only
when the export has no data row to offer, and whenever the client
registry is non-empty the round trip fails to reproduce its set of ids,
documents and names. -/
theorem spec_c2_roundtrip_amended (st : AppState) :
    (upload_clients_csv initialState (export_content st)).2.db_clientes = [] ∧
    (dictReader (export_content st)).1 = export_headers ∧
    ((upload_clients_csv initialState (export_content st)).1 =
        .ok "Clientes cargados exitosamente" ↔
      (dictReader (export_content st)).2 = []) ∧
    (st.db_clientes ≠ [] →
      ¬ (∀ x, x ∈ clientIdentity
            (upload_clients_csv initialState (export_content st)).2.db_clientes ↔
          x ∈ clientIdentity st.db_clientes)) := by
  refine ⟨upload_export_clientes st, dictReader_export st, ?_, fun hne hall => ?_⟩
  · constructor
    · intro hok
      by_contra hrows
      obtain ⟨fields, rest, hr⟩ : ∃ fields rest,
          (dictReader (export_content st)).2 = fields :: rest := by
        cases h2 : (dictReader (export_content st)).2 with
        | nil => exact absurd h2 hrows
        | cons a b => exact ⟨a, b, rfl⟩
      obtain ⟨e, he⟩ := processRow_export_header fields
      have : (upload_clients_csv initialState (export_content st)).1 =
          .error e := by
        simp only [upload_clients_csv]
        rw [dictReader_export st, hr]
        simp [upload_loop, he]
      rw [this] at hok
      exact Except.noConfusion hok
    · intro hnil
      simp only [upload_clients_csv]
      rw [dictReader_export st, hnil]
      simp [upload_loop]
  · cases hdb : st.db_clientes with
    | nil => exact hne hdb
    | cons p rest =>
      have hx : (p.2.id, p.2.documento, p.2.first_name, p.2.last_name) ∈
          clientIdentity st.db_clientes := by
        rw [hdb]
        simp [clientIdentity, dvalues]
      have h0 := (hall _).2 hx
      rw [upload_export_clientes st] at h0
      simp [clientIdentity, dvalues] at h0

/-- Witness for C2: the amended round-trip statement applied to the
concrete scenario state, whose client registry is non-empty. -/
theorem spec_c2_witness :
    (upload_clients_csv initialState (export_content scenarioState)).2.db_clientes = [] ∧
    ¬ (∀ x, x ∈ clientIdentity
          (upload_clients_csv initialState (export_content scenarioState)).2.db_clientes ↔
        x ∈ clientIdentity scenarioState.db_clientes) :=
  ⟨(spec_c2_roundtrip_amended scenarioState).1,
   (spec_c2_roundtrip_amended scenarioState).2.2.2 (by decide)⟩

end FastApiApp
